import Mathlib

/-!
# Verification of the `fonny` REPL core (`src/fonny/core/repl.py`)

A shallow embedding of the `ForthRepl` class and its collaborators.

* The communication port (`CommunicationPort` implementations such as
  `NullCommunicationAdapter` or the serial adapter) is modelled by a record
  of behaviours: each transport method either returns a value (`Except.ok`)
  or raises a Python exception carrying a message (`Except.error`).
* Archivists (`ArchivistPort` implementations) are identified by natural
  numbers.  Dispatching an event to an archivist is modelled as emitting the
  pair `(archivist, event)` into an ordered trace; an archivist that raises
  while handling an event is modelled by a `FailSpec` returning `some msg`.
* Python exceptions escaping a method are modelled by the `Option String` /
  `Except String _` component of each operation's result: `some msg` /
  `.error msg` means the call raised an exception with message `msg`.
* The mutable instance attributes `_current_response` (a string, modelled as
  its list of characters) and `character_queue` (a FIFO of characters) form
  the `ForthRepl` state, together with `_comm_port` and `_archivists`.
-/

namespace Fonny

/-- The event kinds of `ArchivistPort` (EventType together with the
kind-specific payload recorded by `record_user_command`,
`record_system_response`, `record_system_error`,
`record_connection_opened`, `record_connection_closed`). -/
inductive Event where
  | userCommand (command : String)
  | systemResponse (response : String)
  | systemError (error : String)
  | connectionOpened
  | connectionClosed
deriving DecidableEq, Repr

/-- Behaviour of a `CommunicationPort` implementation.  Each method either
returns (`Except.ok`) or raises an exception with a message
(`Except.error`). -/
structure CommPort where
  connectResult : Except String Bool
  disconnectResult : Except String Unit
  sendResult : String → Except String Unit
  isConnectedResult : Except String Bool

/-- The message of the `NotImplementedError` raised by every method of
`NullCommunicationAdapter` (adapters/null_adapter.py). -/
def nullMessage : String := "No communication adapter has been set"

/-- `NullCommunicationAdapter`: every method raises
`NotImplementedError("No communication adapter has been set")`. -/
def NullCommunicationAdapter : CommPort where
  connectResult := .error nullMessage
  disconnectResult := .error nullMessage
  sendResult := fun _ => .error nullMessage
  isConnectedResult := .error nullMessage

/-- The state of a `ForthRepl` instance: `_comm_port`, `_archivists`
(in registration order), `_current_response` (the pending-line buffer,
as a list of characters) and `character_queue` (FIFO contents). -/
structure ForthRepl where
  commPort : CommPort
  archivists : List Nat
  currentResponse : List Char
  characterQueue : List Char

/-- `ForthRepl.__init__`: null adapter, no archivists, empty pending
buffer, empty character queue. -/
def ForthRepl.init : ForthRepl :=
  { commPort := NullCommunicationAdapter
    archivists := []
    currentResponse := []
    characterQueue := [] }

/-- `ForthRepl.set_communication_port`. -/
def set_communication_port (repl : ForthRepl) (port : CommPort) : ForthRepl :=
  { repl with commPort := port }

/-- `ForthRepl.add_archivist`: `self._archivists.append(archivist)`. -/
def add_archivist (repl : ForthRepl) (a : Nat) : ForthRepl :=
  { repl with archivists := repl.archivists ++ [a] }

/-- `ForthRepl.remove_archivist`: `if archivist in self._archivists:
self._archivists.remove(archivist)` — removes the first occurrence,
no-op when absent. -/
def remove_archivist (repl : ForthRepl) (a : Nat) : ForthRepl :=
  if a ∈ repl.archivists then { repl with archivists := repl.archivists.erase a }
  else repl

/-- `ForthRepl.clear_character_queue`: drains the queue. -/
def clear_character_queue (repl : ForthRepl) : ForthRepl :=
  { repl with characterQueue := [] }

/-- Failure behaviour of the registered archivists: `fails a e = some msg`
means archivist `a` raises an exception with message `msg` when asked to
record event `e`; `none` means it records the event normally. -/
def FailSpec : Type := Nat → Event → Option String

/-- Archivists that never raise. -/
def noFail : FailSpec := fun _ _ => none

/-- The dispatch loop `for archivist in self._archivists: archivist.record_*`
(used verbatim in `start`, `stop`, `process_command` and
`_process_response`).  There is no `try/except` inside the loop: the first
archivist that raises aborts the loop, later archivists are not visited, and
the exception propagates (`some msg`).  Returns the `(archivist, event)`
records made, in registration order, and the escaped exception if any. -/
def notifyAll (fails : FailSpec) : List Nat → Event → List (Nat × Event) × Option String
  | [], _ => ([], none)
  | a :: rest, e =>
    match fails a e with
    | some msg => ([], some msg)
    | none =>
      let r := notifyAll fails rest e
      ((a, e) :: r.1, r.2)

/-- `ForthRepl.handle_character`: puts the character on `character_queue`
first, then on `'\n'` or `'\r'` flushes a non-empty pending buffer as a
`SystemResponse` dispatched via `_process_response` (an empty buffer emits
nothing), and otherwise appends the character to the pending buffer.
If an archivist raises during `_process_response`, the exception propagates
before `self._current_response = ""` runs, so the buffer is not cleared.
Returns the new state, the records made, and the escaped exception. -/
def handle_character (fails : FailSpec) (repl : ForthRepl) (c : Char) :
    ForthRepl × List (Nat × Event) × Option String :=
  let repl1 : ForthRepl := { repl with characterQueue := repl.characterQueue ++ [c] }
  if c = '\n' ∨ c = '\r' then
    if repl1.currentResponse = [] then (repl1, [], none)
    else
      let r := notifyAll fails repl1.archivists
        (Event.systemResponse (String.mk repl1.currentResponse))
      match r.2 with
      | some msg => (repl1, r.1, some msg)
      | none => ({ repl1 with currentResponse := [] }, r.1, none)
  else
    ({ repl1 with currentResponse := repl1.currentResponse ++ [c] }, [], none)

/-- Feeding a sequence of characters one at a time into `handle_character`;
an exception escaping `handle_character` aborts the feed. -/
def feedChars (fails : FailSpec) (repl : ForthRepl) :
    List Char → ForthRepl × List (Nat × Event) × Option String
  | [] => (repl, [], none)
  | c :: cs =>
    let r1 := handle_character fails repl c
    match r1.2.2 with
    | some msg => (r1.1, r1.2.1, some msg)
    | none =>
      let r2 := feedChars fails r1.1 cs
      (r2.1, r1.2.1 ++ r2.2.1, r2.2.2)

/-- `ForthRepl.start`: `try: success = self._comm_port.connect(); if success:
record_connection_opened for each archivist; return success; except Exception
as e: record_system_error(str(e)) for each archivist; return False`.
The `try` block covers the archivist loop as well, so an archivist raising on
`record_connection_opened` is caught and converted into the error path; an
archivist raising inside the `except` handler escapes to the caller.
`start` assigns no instance attribute, so the state is returned unchanged.
Returns the (unchanged) state, the records made, and `Except.ok b` for a
normal return of `b` or `Except.error msg` for an escaped exception. -/
def start (fails : FailSpec) (repl : ForthRepl) :
    ForthRepl × List (Nat × Event) × Except String Bool :=
  match repl.commPort.connectResult with
  | .error msg =>
    let r := notifyAll fails repl.archivists (Event.systemError msg)
    match r.2 with
    | some m2 => (repl, r.1, .error m2)
    | none => (repl, r.1, .ok false)
  | .ok success =>
    if success then
      let r := notifyAll fails repl.archivists Event.connectionOpened
      match r.2 with
      | some msg =>
        let r2 := notifyAll fails repl.archivists (Event.systemError msg)
        match r2.2 with
        | some m2 => (repl, r.1 ++ r2.1, .error m2)
        | none => (repl, r.1 ++ r2.1, .ok false)
      | none => (repl, r.1, .ok true)
    else (repl, [], .ok false)

/-- One step of the trace of `ForthRepl.stop`: either an archivist records an
event, or `self._comm_port.disconnect()` is invoked. -/
inductive StopAction where
  | record (archivist : Nat) (e : Event)
  | disconnectCall
deriving DecidableEq, Repr

/-- `ForthRepl.stop`: `if self._comm_port.is_connected(): record_connection_closed
for each archivist; self._comm_port.disconnect()`.  Nothing is wrapped in
`try`, so an exception from `is_connected`, an archivist, or `disconnect`
escapes to the caller.  `stop` assigns no instance attribute, so the state
is returned unchanged.  Returns the (unchanged) state, the ordered trace of
archivist records and disconnect calls, and the escaped exception if any. -/
def stop (fails : FailSpec) (repl : ForthRepl) :
    ForthRepl × List StopAction × Except String Unit :=
  match repl.commPort.isConnectedResult with
  | .error msg => (repl, [], .error msg)
  | .ok false => (repl, [], .ok ())
  | .ok true =>
    let r := notifyAll fails repl.archivists Event.connectionClosed
    let recs := r.1.map (fun p => StopAction.record p.1 p.2)
    match r.2 with
    | some msg => (repl, recs, .error msg)
    | none =>
      match repl.commPort.disconnectResult with
      | .ok _ => (repl, recs ++ [StopAction.disconnectCall], .ok ())
      | .error msg => (repl, recs ++ [StopAction.disconnectCall], .error msg)

/-- Python `str.lower()`, characterwise (`command.lower()` in
`process_command`; the commands at issue are ASCII, where Python's and
`Char.toLower`'s case mappings agree). -/
def pyLower (s : String) : String := String.mk (s.data.map Char.toLower)

/-- Python `command.endswith('\n')`: the last character is `'\n'`. -/
def endsWithNewline (s : String) : Bool := s.data.getLast? == some '\n'

/-- The newline normalisation of `process_command`:
`if not command.endswith('\n'): command += '\n'`. -/
def normalize (command : String) : String :=
  if endsWithNewline command then command else command ++ "\n"

/-- `ForthRepl.process_command`: return immediately when
`command.lower() == 'exit'`; otherwise record `UserCommand(command)` in every
archivist (before normalisation), normalise, and `try:
self._comm_port.send_command(command)` — on an exception record
`SystemError(str(e))` in every archivist and re-`raise`.  Returns the list of
payloads passed to `send_command` (the transport-send calls, in order), the
records made, and `Except.ok ()` for a normal return or `Except.error msg`
for an escaped exception. -/
def process_command (fails : FailSpec) (repl : ForthRepl) (command : String) :
    List String × List (Nat × Event) × Except String Unit :=
  if pyLower command = "exit" then ([], [], .ok ())
  else
    let r := notifyAll fails repl.archivists (Event.userCommand command)
    match r.2 with
    | some msg => ([], r.1, .error msg)
    | none =>
      let cmd := normalize command
      match repl.commPort.sendResult cmd with
      | .ok _ => ([cmd], r.1, .ok ())
      | .error msg =>
        let r2 := notifyAll fails repl.archivists (Event.systemError msg)
        match r2.2 with
        | some m2 => ([cmd], r.1 ++ r2.1, .error m2)
        | none => ([cmd], r.1 ++ r2.1, .error msg)

/-- A sequence of lines, each terminated by `'\n'`, delivered back-to-back
(e.g. `terminatedLines ["Line 1", "Line 2"]` is the character stream
`"Line 1\nLine 2\n"`). -/
def terminatedLines : List String → List Char
  | [] => []
  | s :: rest => s.data ++ '\n' :: terminatedLines rest

/-- One `SystemResponse` record per registered archivist for each line, in
line order. -/
def lineRecords (archs : List Nat) : List String → List (Nat × Event)
  | [] => []
  | s :: rest => archs.map (fun a => (a, Event.systemResponse s)) ++ lineRecords archs rest

/-- A well-behaved transport: connects, reports connected, sends and
disconnects without error (the `MockCommunicationPort` of the unit tests). -/
def okPort : CommPort where
  connectResult := .ok true
  disconnectResult := .ok ()
  sendResult := fun _ => .ok ()
  isConnectedResult := .ok true

/-- A transport whose `connect` returns `False` without raising. -/
def falseConnectPort : CommPort where
  connectResult := .ok false
  disconnectResult := .ok ()
  sendResult := fun _ => .ok ()
  isConnectedResult := .ok false

/-- A transport whose `connect` raises (the unit tests'
`MockCommunicationPortWithError`). -/
def connectErrorPort : CommPort where
  connectResult := .error "Connection error"
  disconnectResult := .ok ()
  sendResult := fun _ => .ok ()
  isConnectedResult := .ok false

/-- A transport whose `send_command` raises
(`ConnectionError("Not connected")` in the unit-test mock). -/
def sendErrorPort : CommPort where
  connectResult := .ok true
  disconnectResult := .ok ()
  sendResult := fun _ => .error "Not connected"
  isConnectedResult := .ok true

/-- A repl on the well-behaved transport with one registered archivist. -/
def rOne : ForthRepl :=
  { commPort := okPort, archivists := [0], currentResponse := [], characterQueue := [] }

/-- A repl with two archivists and a pending buffer holding `"hi"`. -/
def rTwo : ForthRepl :=
  { commPort := okPort, archivists := [0, 1], currentResponse := "hi".data,
    characterQueue := [] }

/-- Like `rTwo` but with the archivists registered in the other order. -/
def rTwoSwap : ForthRepl :=
  { commPort := okPort, archivists := [1, 0], currentResponse := "hi".data,
    characterQueue := [] }

/-- Archivist `0` raises `Exception("archivist failure")` on every event it
is asked to record; every other archivist behaves. -/
def failsFirst : FailSpec := fun a _ => if a = 0 then some "archivist failure" else none

/-- A repl whose transport's `connect` returns `False`, with one archivist. -/
def rFalseConnect : ForthRepl :=
  { commPort := falseConnectPort, archivists := [0], currentResponse := [],
    characterQueue := [] }

/-- A repl whose transport raises on `connect`, with one archivist. -/
def rConnectError : ForthRepl :=
  { commPort := connectErrorPort, archivists := [0], currentResponse := [],
    characterQueue := [] }

/-- A repl whose transport raises on `send_command`, with one archivist. -/
def rSendError : ForthRepl :=
  { commPort := sendErrorPort, archivists := [0], currentResponse := [],
    characterQueue := [] }

/-- A freshly constructed repl (null adapter) with one archivist registered. -/
def rUnconfigured : ForthRepl := add_archivist ForthRepl.init 0

/-! ## Basic lemmas about the dispatch loop and the framer -/

/-- With archivists that never raise, the dispatch loop records the event
once per registered archivist, in registration order, and no exception
escapes. -/
theorem notifyAll_noFail (archs : List Nat) (e : Event) :
    notifyAll noFail archs e = (archs.map (fun a => (a, e)), none) := by
  induction archs with
  | nil => rfl
  | cons a rest ih => simp [notifyAll, noFail, ih]

/-- The dispatch loop stops at the first archivist that raises: archivists
before it have recorded the event, it and the ones after it have not, and
the exception escapes. -/
theorem notifyAll_abort (fails : FailSpec) (pre post : List Nat) (bad : Nat)
    (e : Event) (msg : String)
    (hpre : ∀ a ∈ pre, fails a e = none) (hbad : fails bad e = some msg) :
    notifyAll fails (pre ++ bad :: post) e = (pre.map (fun a => (a, e)), some msg) := by
  induction pre with
  | nil => simp [notifyAll, hbad]
  | cons a rest ih =>
    have ha : fails a e = none := hpre a (by simp)
    have hrest : ∀ b ∈ rest, fails b e = none := fun b hb => hpre b (by simp [hb])
    simp [notifyAll, ha, ih hrest]

/-- A non-terminator character is appended to the queue and to the pending
buffer; nothing is dispatched. -/
theorem handle_character_plain (fails : FailSpec) (repl : ForthRepl) (c : Char)
    (h1 : c ≠ '\n') (h2 : c ≠ '\r') :
    handle_character fails repl c =
      ({ repl with characterQueue := repl.characterQueue ++ [c],
                   currentResponse := repl.currentResponse ++ [c] }, [], none) := by
  simp [handle_character, h1, h2]

/-- A terminator on an empty pending buffer goes to the queue and emits
nothing. -/
theorem handle_character_term_empty (fails : FailSpec) (repl : ForthRepl) (c : Char)
    (hc : c = '\n' ∨ c = '\r') (hbuf : repl.currentResponse = []) :
    handle_character fails repl c =
      ({ repl with characterQueue := repl.characterQueue ++ [c] }, [], none) := by
  simp [handle_character, hc, hbuf]

/-- A terminator on a non-empty pending buffer flushes it: with
archivists that never raise, each registered archivist records one
`SystemResponse` carrying the buffered line, and the buffer is cleared. -/
theorem handle_character_flush (repl : ForthRepl) (c : Char)
    (hc : c = '\n' ∨ c = '\r') (hbuf : repl.currentResponse ≠ []) :
    handle_character noFail repl c =
      ({ repl with characterQueue := repl.characterQueue ++ [c], currentResponse := [] },
       repl.archivists.map (fun a => (a, Event.systemResponse (String.mk repl.currentResponse))),
       none) := by
  simp [handle_character, hc, hbuf, notifyAll_noFail]

/-- With archivists that never raise, no exception escapes
`handle_character`. -/
theorem handle_character_noFail_ex (repl : ForthRepl) (c : Char) :
    (handle_character noFail repl c).2.2 = none := by
  by_cases hc : c = '\n' ∨ c = '\r'
  · by_cases hbuf : repl.currentResponse = []
    · rw [handle_character_term_empty noFail repl c hc hbuf]
    · rw [handle_character_flush repl c hc hbuf]
  · push_neg at hc
    rw [handle_character_plain noFail repl c hc.1 hc.2]

/-- Feeding a concatenation feeds the two halves in sequence (when no
archivist raises). -/
theorem feedChars_noFail_append (xs ys : List Char) (repl : ForthRepl) :
    feedChars noFail repl (xs ++ ys) =
      ((feedChars noFail (feedChars noFail repl xs).1 ys).1,
       (feedChars noFail repl xs).2.1 ++ (feedChars noFail (feedChars noFail repl xs).1 ys).2.1,
       (feedChars noFail (feedChars noFail repl xs).1 ys).2.2) := by
  induction xs generalizing repl with
  | nil => simp [feedChars]
  | cons c cs ih =>
    have hex := handle_character_noFail_ex repl c
    simp only [List.cons_append, feedChars, hex, ih]
    simp [ih, List.append_assoc]

/-- Feeding a run of non-terminator characters accumulates them, in order,
into the pending buffer and the character queue; no event is dispatched. -/
theorem feedChars_plain (cs : List Char) (h : ∀ c ∈ cs, c ≠ '\n' ∧ c ≠ '\r') :
    ∀ repl : ForthRepl,
    feedChars noFail repl cs =
      ({ repl with characterQueue := repl.characterQueue ++ cs,
                   currentResponse := repl.currentResponse ++ cs }, [], none) := by
  induction cs with
  | nil => intro repl; simp [feedChars]
  | cons c cs ih =>
    intro repl
    have hc := h c (by simp)
    have hrest : ∀ x ∈ cs, x ≠ '\n' ∧ x ≠ '\r' := fun x hx => h x (by simp [hx])
    simp only [feedChars, handle_character_plain noFail repl c hc.1 hc.2, ih hrest]
    simp

/-- Feeding a non-empty terminator-free line followed by `'\n'` from an
empty buffer dispatches exactly one `SystemResponse` per registered
archivist, carrying the line, and leaves the buffer empty. -/
theorem feedChars_line (S : String) (hne : S ≠ "")
    (hS : ∀ c ∈ S.data, c ≠ '\n' ∧ c ≠ '\r')
    (repl : ForthRepl) (hbuf : repl.currentResponse = []) :
    feedChars noFail repl (S.data ++ ['\n']) =
      ({ repl with characterQueue := repl.characterQueue ++ (S.data ++ ['\n']),
                   currentResponse := [] },
       repl.archivists.map (fun a => (a, Event.systemResponse S)), none) := by
  obtain ⟨port, archs, cr, q⟩ := repl
  simp only at hbuf
  subst hbuf
  obtain ⟨data⟩ := S
  have hdata : data ≠ [] := fun h0 => hne (by simp [h0])
  rw [feedChars_noFail_append, feedChars_plain data hS]
  simp only [List.nil_append]
  have hflush := handle_character_flush
    { commPort := port, archivists := archs, currentResponse := data,
      characterQueue := q ++ data }
    '\n' (Or.inl rfl) hdata
  simp only [feedChars, hflush]
  simp [List.append_assoc]

/-- A line terminated by the pair `'\r'`, `'\n'` dispatches exactly one
`SystemResponse` per archivist — the `'\r'` flushes the buffer and the
`'\n'` then finds it empty and emits nothing. -/
theorem feedChars_line_crlf (S : String) (hne : S ≠ "")
    (hS : ∀ c ∈ S.data, c ≠ '\n' ∧ c ≠ '\r')
    (repl : ForthRepl) (hbuf : repl.currentResponse = []) :
    feedChars noFail repl (S.data ++ ['\r', '\n']) =
      ({ repl with characterQueue := repl.characterQueue ++ (S.data ++ ['\r', '\n']),
                   currentResponse := [] },
       repl.archivists.map (fun a => (a, Event.systemResponse S)), none) := by
  obtain ⟨port, archs, cr, q⟩ := repl
  simp only at hbuf
  subst hbuf
  obtain ⟨data⟩ := S
  have hdata : data ≠ [] := fun h0 => hne (by simp [h0])
  rw [feedChars_noFail_append, feedChars_plain data hS]
  simp only [List.nil_append]
  have hflush := handle_character_flush
    { commPort := port, archivists := archs, currentResponse := data,
      characterQueue := q ++ data }
    '\r' (Or.inr rfl) hdata
  have hempty := handle_character_term_empty noFail
    { commPort := port, archivists := archs, currentResponse := [],
      characterQueue := (q ++ data) ++ ['\r'] }
    '\n' (Or.inl rfl) rfl
  simp only [feedChars, hflush, hempty]
  simp [List.append_assoc]

/-- Feeding several terminated lines back-to-back dispatches one
`SystemResponse` per archivist per line, in line order. -/
theorem feedChars_lines (L : List String)
    (hL : ∀ s ∈ L, s ≠ "" ∧ ∀ c ∈ s.data, c ≠ '\n' ∧ c ≠ '\r') :
    ∀ repl : ForthRepl, repl.currentResponse = [] →
    feedChars noFail repl (terminatedLines L) =
      ({ repl with characterQueue := repl.characterQueue ++ terminatedLines L },
       lineRecords repl.archivists L, none) := by
  induction L with
  | nil =>
    intro repl hbuf
    simp [feedChars, terminatedLines, lineRecords]
  | cons s rest ih =>
    intro repl hbuf
    have hs := hL s (by simp)
    have hrest : ∀ t ∈ rest, t ≠ "" ∧ ∀ c ∈ t.data, c ≠ '\n' ∧ c ≠ '\r' :=
      fun t ht => hL t (by simp [ht])
    have hsplit : terminatedLines (s :: rest) = (s.data ++ ['\n']) ++ terminatedLines rest := by
      simp [terminatedLines]
    rw [hsplit, feedChars_noFail_append, feedChars_line s hs.1 hs.2 repl hbuf]
    simp [ih hrest, hbuf, lineRecords, List.append_assoc]

/-! ## The claims -/

/-- C1, counterexample: the claim quantifies over every terminator-free
string `S`, but for `S = ""` feeding `S + "\n"` into `handle_character`
produces no `SystemResponse` at all (blank lines are suppressed), not one
per registered archivist as claimed. -/
theorem C1_counterexample :
    (feedChars noFail rOne ("".data ++ ['\n'])).2.1 = [] ∧
    rOne.archivists.map (fun a => (a, Event.systemResponse "")) ≠ [] := by decide

/-- C1 (amended): for every non-empty string `S` containing no `'\n'` or
`'\r'`, feeding `S + "\n"` one character at a time into `handle_character`
from an empty pending buffer produces exactly one `SystemResponse` per
registered archivist with response `S`; terminating the line with the pair
`"\r\n"` instead produces exactly one completed-line event, not two; and
feeding several terminated non-empty lines back-to-back produces one
`SystemResponse` per line per archivist, in input order. -/
theorem C1_line_framing :
    (∀ (S : String) (repl : ForthRepl), S ≠ "" →
      (∀ c ∈ S.data, c ≠ '\n' ∧ c ≠ '\r') → repl.currentResponse = [] →
      (feedChars noFail repl (S.data ++ ['\n'])).2.1 =
        repl.archivists.map (fun a => (a, Event.systemResponse S)) ∧
      (feedChars noFail repl (S.data ++ ['\r', '\n'])).2.1 =
        repl.archivists.map (fun a => (a, Event.systemResponse S))) ∧
    (∀ (L : List String) (repl : ForthRepl),
      (∀ s ∈ L, s ≠ "" ∧ ∀ c ∈ s.data, c ≠ '\n' ∧ c ≠ '\r') →
      repl.currentResponse = [] →
      (feedChars noFail repl (terminatedLines L)).2.1 = lineRecords repl.archivists L) := by
  refine ⟨fun S repl hne hS hbuf => ?_, fun L repl hL hbuf => ?_⟩
  · rw [feedChars_line S hne hS repl hbuf, feedChars_line_crlf S hne hS repl hbuf]
    exact ⟨rfl, rfl⟩
  · rw [feedChars_lines L hL repl hbuf]

/-- C1, witness: the amended theorem applied to the line `"Line 1"` and to
the three-line stream `"Line 1\nLine 2\nLine 3\n"` on a repl with one
archivist. -/
theorem C1_line_framing_witness :
    (feedChars noFail rOne ("Line 1".data ++ ['\n'])).2.1 =
      [(0, Event.systemResponse "Line 1")] ∧
    (feedChars noFail rOne (terminatedLines ["Line 1", "Line 2", "Line 3"])).2.1 =
      [(0, Event.systemResponse "Line 1"), (0, Event.systemResponse "Line 2"),
       (0, Event.systemResponse "Line 3")] := by
  constructor
  · have h := (C1_line_framing.1 "Line 1" rOne (by decide) (by decide) rfl).1
    rw [h]; rfl
  · have h := C1_line_framing.2 ["Line 1", "Line 2", "Line 3"] rOne (by decide) rfl
    rw [h]; rfl

/-- C2, counterexample: `process_command("2 2 +")` sends `"2 2 +\n"` but
records the `UserCommand` with command `"2 2 +"` — the recorded command
does not include the appended terminator, contradicting the claim that the
recorded field equals the transmitted string. -/
theorem C2_counterexample :
    (process_command noFail rOne "2 2 +").1 = ["2 2 +\n"] ∧
    (process_command noFail rOne "2 2 +").2.1 = [(0, Event.userCommand "2 2 +")] ∧
    Event.userCommand "2 2 +" ≠ Event.userCommand "2 2 +\n" := by decide

/-- C2 (amended): recording happens before newline normalisation: for every
non-exit command `c`, `process_command` makes exactly one transport-send
call with the normalised payload and records exactly one `UserCommand` per
archivist whose command field is the original string `c` as passed. -/
theorem C2_record_before_normalize (repl : ForthRepl) (c : String)
    (hexit : pyLower c ≠ "exit")
    (hsend : repl.commPort.sendResult (normalize c) = .ok ()) :
    process_command noFail repl c =
      ([normalize c], repl.archivists.map (fun a => (a, Event.userCommand c)),
       Except.ok ()) := by
  simp [process_command, hexit, hsend, notifyAll_noFail]

/-- C2, witness: the amended theorem at `"2 2 +"` on a repl with one
archivist and a well-behaved transport. -/
theorem C2_record_before_normalize_witness :
    process_command noFail rOne "2 2 +" =
      (["2 2 +\n"], [(0, Event.userCommand "2 2 +")], Except.ok ()) := by
  have h := C2_record_before_normalize rOne "2 2 +" (by decide) rfl
  rw [h]; rfl

/-- C3, counterexample: a transport whose `connect` returns `False` (an
error return rather than an exception) makes `start()` return `False`
with no events at all — the registered archivist receives no `SystemError`
event, contradicting the claim's "raises or returns an error" case. -/
theorem C3_counterexample :
    (start noFail rFalseConnect).2.2 = Except.ok false ∧
    (start noFail rFalseConnect).2.1 = [] ∧
    rFalseConnect.archivists = [0] :=
  ⟨rfl, by decide, rfl⟩

/-- C3 (amended): connect and send failures are handled asymmetrically:
when `connect` raises, `start()` returns `False`, propagates nothing, and
each archivist records exactly one `SystemError` with the failure message
(and no `ConnectionOpened`); when `connect` returns `False`, `start()`
returns `False` with no events; when `send_command` raises,
`process_command` records a `SystemError` in every archivist and re-raises
the same exception. -/
theorem C3_failure_asymmetry :
    (∀ (repl : ForthRepl) (msg : String), repl.commPort.connectResult = .error msg →
      start noFail repl =
        (repl, repl.archivists.map (fun a => (a, Event.systemError msg)), Except.ok false)) ∧
    (∀ repl : ForthRepl, repl.commPort.connectResult = .ok false →
      start noFail repl = (repl, [], Except.ok false)) ∧
    (∀ (repl : ForthRepl) (c msg : String), pyLower c ≠ "exit" →
      repl.commPort.sendResult (normalize c) = .error msg →
      process_command noFail repl c =
        ([normalize c],
         repl.archivists.map (fun a => (a, Event.userCommand c)) ++
           repl.archivists.map (fun a => (a, Event.systemError msg)),
         Except.error msg)) := by
  refine ⟨fun repl msg h => ?_, fun repl h => ?_, fun repl c msg hexit hsend => ?_⟩
  · simp [start, h, notifyAll_noFail]
  · simp [start, h]
  · simp [process_command, hexit, hsend, notifyAll_noFail]

/-- C3, witness: the amended theorem on a transport raising
`"Connection error"` on connect, one returning `False` on connect, and one
raising `"Not connected"` on send. -/
theorem C3_failure_asymmetry_witness :
    start noFail rConnectError =
      (rConnectError, [(0, Event.systemError "Connection error")], Except.ok false) ∧
    start noFail rFalseConnect = (rFalseConnect, [], Except.ok false) ∧
    process_command noFail rSendError "2 2 +" =
      (["2 2 +\n"],
       [(0, Event.userCommand "2 2 +"), (0, Event.systemError "Not connected")],
       Except.error "Not connected") := by
  refine ⟨?_, ?_, ?_⟩
  · have h := C3_failure_asymmetry.1 rConnectError "Connection error" rfl
    rw [h]; rfl
  · exact C3_failure_asymmetry.2.1 rFalseConnect rfl
  · have h := C3_failure_asymmetry.2.2 rSendError "2 2 +" "Not connected" (by decide) rfl
    rw [h]; rfl

/-- C4, counterexample: with archivists `[0, 1]` where archivist `0` raises
on every event, flushing a completed line delivers the `SystemResponse` to
nobody — archivist `1` never receives it — and the exception propagates out
of `handle_character`, contradicting the claimed isolation. -/
theorem C4_counterexample :
    (handle_character failsFirst rTwo '\n').2.1 = [] ∧
    (handle_character failsFirst rTwo '\n').2.2 = some "archivist failure" := by decide

/-- C4 (amended): archivist failures are not isolated: when an archivist
raises while recording a dispatched `SystemResponse`, archivists earlier in
registration order have already received the event, the failing archivist
and all later ones receive nothing, and the exception propagates to the
caller of `handle_character`. -/
theorem C4_dispatch_aborts (repl : ForthRepl) (fails : FailSpec)
    (pre post : List Nat) (bad : Nat) (msg : String) (c : Char)
    (hc : c = '\n' ∨ c = '\r') (hbuf : repl.currentResponse ≠ [])
    (harch : repl.archivists = pre ++ bad :: post)
    (hpre : ∀ a ∈ pre, fails a (Event.systemResponse (String.mk repl.currentResponse)) = none)
    (hbad : fails bad (Event.systemResponse (String.mk repl.currentResponse)) = some msg) :
    (handle_character fails repl c).2.1 =
      pre.map (fun a => (a, Event.systemResponse (String.mk repl.currentResponse))) ∧
    (handle_character fails repl c).2.2 = some msg := by
  have hnot := notifyAll_abort fails pre post bad
    (Event.systemResponse (String.mk repl.currentResponse)) msg hpre hbad
  rcases hc with rfl | rfl <;>
    simp [handle_character, hbuf, harch, hnot]

/-- C4, witness: with registration order `[1, 0]` and archivist `0` raising,
archivist `1` (earlier in order) receives the response, archivist `0`
aborts the loop and the exception escapes. -/
theorem C4_dispatch_aborts_witness :
    (handle_character failsFirst rTwoSwap '\n').2.1 = [(1, Event.systemResponse "hi")] ∧
    (handle_character failsFirst rTwoSwap '\n').2.2 = some "archivist failure" := by
  have h := C4_dispatch_aborts rTwoSwap failsFirst [1] [] 0 "archivist failure" '\n'
    (Or.inl rfl) (by decide) rfl (by decide) (by decide)
  exact ⟨h.1.trans (by decide), h.2⟩

/-- C5, counterexample: `process_command(" exit")` — the sentinel with
surrounding whitespace — is not recognised: the command check is
`command.lower() == 'exit'` without trimming, so the command is forwarded
to the transport (as `" exit\n"`) and a `UserCommand` event is recorded,
contradicting the claim's "with or without surrounding whitespace". -/
theorem C5_counterexample :
    (process_command noFail rOne " exit").1 = [" exit\n"] ∧
    (process_command noFail rOne " exit").2.1 = [(0, Event.userCommand " exit")] := by decide

/-- C5 (amended): only a command whose lowercased form equals `"exit"`
exactly (any letter case, but with no surrounding whitespace) is treated as
the sentinel: `process_command` then does nothing — zero transport-send
calls and zero events. -/
theorem C5_exit_sentinel (repl : ForthRepl) (c : String) (h : pyLower c = "exit") :
    process_command noFail repl c = ([], [], Except.ok ()) := by
  unfold process_command
  rw [if_pos h]

/-- C5, witness: the amended theorem at `"EXIT"`. -/
theorem C5_exit_sentinel_witness :
    process_command noFail rOne "EXIT" = ([], [], Except.ok ()) :=
  C5_exit_sentinel rOne "EXIT" (by decide)

/-- C6: when the transport reports connected, `stop()` records exactly one
`ConnectionClosed` per registered archivist, all before the single
`disconnect()` call (the trace lists the records first, then exactly one
disconnect); when the transport reports not connected, `stop()` is a no-op
with no events and no disconnect call. -/
theorem C6_stop_semantics :
    (∀ repl : ForthRepl, repl.commPort.isConnectedResult = .ok true →
      repl.commPort.disconnectResult = .ok () →
      stop noFail repl =
        (repl,
         repl.archivists.map (fun a => StopAction.record a Event.connectionClosed) ++
           [StopAction.disconnectCall],
         Except.ok ())) ∧
    (∀ repl : ForthRepl, repl.commPort.isConnectedResult = .ok false →
      stop noFail repl = (repl, [], Except.ok ())) := by
  refine ⟨fun repl h1 h2 => ?_, fun repl h => ?_⟩
  · simp [stop, h1, h2, notifyAll_noFail, List.map_map]
  · simp [stop, h]

/-- C6, witness: `stop()` on a connected transport with one archivist, and
on a disconnected transport. -/
theorem C6_stop_semantics_witness :
    stop noFail rOne =
      (rOne, [StopAction.record 0 Event.connectionClosed, StopAction.disconnectCall],
       Except.ok ()) ∧
    stop noFail rFalseConnect = (rFalseConnect, [], Except.ok ()) := by
  constructor
  · have h := C6_stop_semantics.1 rOne rfl rfl
    rw [h]; rfl
  · exact C6_stop_semantics.2 rFalseConnect rfl

/-- C7: the dispatch loop delivers every event to the archivists in
registration (insertion) order; registering the same archivist twice
yields two notifications of each event; and `remove_archivist` of an
archivist that is not registered is a no-op that does not raise. -/
theorem C7_registry_semantics :
    (∀ (archs : List Nat) (e : Event),
      notifyAll noFail archs e = (archs.map (fun a => (a, e)), none)) ∧
    (∀ (repl : ForthRepl) (a : Nat) (e : Event),
      notifyAll noFail (add_archivist (add_archivist repl a) a).archivists e =
        (repl.archivists.map (fun b => (b, e)) ++ [(a, e), (a, e)], none)) ∧
    (∀ (repl : ForthRepl) (a : Nat), a ∉ repl.archivists → remove_archivist repl a = repl) := by
  refine ⟨notifyAll_noFail, fun repl a e => ?_, fun repl a h => ?_⟩
  · simp [add_archivist, notifyAll_noFail, List.append_assoc]
  · simp [remove_archivist, h]

/-- C7, witness: dispatch to `[0, 1]` delivers in that order, and removing
the unregistered archivist `7` leaves the repl unchanged. -/
theorem C7_registry_semantics_witness :
    notifyAll noFail [0, 1] Event.connectionOpened =
      ([(0, Event.connectionOpened), (1, Event.connectionOpened)], none) ∧
    remove_archivist rOne 7 = rOne := by
  constructor
  · have h := C7_registry_semantics.1 [0, 1] Event.connectionOpened
    rw [h]; rfl
  · exact C7_registry_semantics.2.2 rOne 7 (by decide)

/-- C8, counterexample: feed `"abc"` (no terminator), then a successful
`stop()` and a successful `start()`: the pending buffer still holds
`"abc"`, and the first `'\n'` after the restart flushes the pre-stop
characters as a `SystemResponse` — state carried over the cycle,
contradicting the claim. -/
theorem C8_counterexample :
    (stop noFail (feedChars noFail rOne "abc".data).1).2.2 = Except.ok () ∧
    (start noFail (stop noFail (feedChars noFail rOne "abc".data).1).1).2.2 = Except.ok true ∧
    ((start noFail (stop noFail (feedChars noFail rOne "abc".data).1).1).1).currentResponse =
      "abc".data ∧
    (feedChars noFail
        (start noFail (stop noFail (feedChars noFail rOne "abc".data).1).1).1 ['\n']).2.1 =
      [(0, Event.systemResponse "abc")] :=
  ⟨rfl, rfl, by decide, by decide⟩

/-- C8 (amended): `start()` and `stop()` assign no instance attribute: the
entire `ForthRepl` state — including the pending-line buffer and the
character queue, not just the sink registry and the transport reference —
survives a stop/start cycle unchanged; nothing is reset. -/
theorem C8_state_unchanged (fails : FailSpec) (repl : ForthRepl) :
    (start fails repl).1 = repl ∧ (stop fails repl).1 = repl := by
  constructor
  · cases hc : repl.commPort.connectResult with
    | error msg =>
      simp only [start, hc]
      cases hx : (notifyAll fails repl.archivists (Event.systemError msg)).2 <;> simp [hx]
    | ok b =>
      cases b
      · simp [start, hc]
      · simp only [start, hc]
        cases hx : (notifyAll fails repl.archivists Event.connectionOpened).2 with
        | none => simp [hx]
        | some msg =>
          cases hx2 : (notifyAll fails repl.archivists (Event.systemError msg)).2 <;>
            simp [hx, hx2]
  · cases hc : repl.commPort.isConnectedResult with
    | error msg => simp [stop, hc]
    | ok b =>
      cases b
      · simp [stop, hc]
      · simp only [stop, hc]
        cases hx : (notifyAll fails repl.archivists Event.connectionClosed).2 with
        | some msg => simp [hx]
        | none =>
          cases hd : repl.commPort.disconnectResult <;> simp [hx, hd]

/-- C9: every character passed to `handle_character` — terminators
included, and regardless of whether an archivist raises during the flush —
is appended to the character queue before any framing decision, so the
queue holds exactly the received characters in arrival order. -/
theorem C9_queue_order :
    (∀ (fails : FailSpec) (repl : ForthRepl) (c : Char),
      (handle_character fails repl c).1.characterQueue = repl.characterQueue ++ [c]) ∧
    (∀ (repl : ForthRepl) (cs : List Char),
      (feedChars noFail repl cs).1.characterQueue = repl.characterQueue ++ cs) := by
  have h1 : ∀ (fails : FailSpec) (repl : ForthRepl) (c : Char),
      (handle_character fails repl c).1.characterQueue = repl.characterQueue ++ [c] := by
    intro fails repl c
    by_cases hc : c = '\n' ∨ c = '\r'
    · by_cases hb : repl.currentResponse = []
      · rw [handle_character_term_empty fails repl c hc hb]
      · simp only [handle_character, if_pos hc]
        cases hx : (notifyAll fails repl.archivists
            (Event.systemResponse (String.mk repl.currentResponse))).2 <;>
          simp [hb, hx]
    · push_neg at hc
      rw [handle_character_plain fails repl c hc.1 hc.2]
  refine ⟨h1, fun repl cs => ?_⟩
  induction cs generalizing repl with
  | nil => simp [feedChars]
  | cons c rest ih =>
    have hex := handle_character_noFail_ex repl c
    simp only [feedChars, hex]
    rw [ih, h1]
    simp

/-- C10: before a real communication port is set, `start()` never raises —
it returns `False` and records one `SystemError` with message
`"No communication adapter has been set"` per registered archivist —
whereas `stop()` propagates the `NotImplementedError` raised by the null
adapter's `is_connected` (no events, no disconnect call), so `stop()` on an
unconfigured engine is not a no-op. -/
theorem C10_unconfigured (repl : ForthRepl) (h : repl.commPort = NullCommunicationAdapter) :
    start noFail repl =
      (repl, repl.archivists.map
        (fun a => (a, Event.systemError "No communication adapter has been set")),
       Except.ok false) ∧
    stop noFail repl =
      (repl, [], Except.error "No communication adapter has been set") := by
  constructor
  · simp [start, h, NullCommunicationAdapter, nullMessage, notifyAll_noFail]
  · simp [stop, h, NullCommunicationAdapter, nullMessage]

/-- C10, witness: a freshly constructed repl with one archivist. -/
theorem C10_unconfigured_witness :
    start noFail rUnconfigured =
      (rUnconfigured, [(0, Event.systemError "No communication adapter has been set")],
       Except.ok false) ∧
    stop noFail rUnconfigured =
      (rUnconfigured, [], Except.error "No communication adapter has been set") := by
  have h := C10_unconfigured rUnconfigured rfl
  exact ⟨h.1.trans (by rfl), h.2⟩

end Fonny
